import Mathlib

/-!
Shallow embedding of the GeoDaily round-generation and phase-progression
engine (src/script.js), its enrichment merge (src/script.js), and the
dataset aggregation script (src/fetch_data.js).

Machine numbers in the source are JS doubles used only on small integral
and decimal values; they are embedded as rationals.  `Math.random()` draws
are passed in explicitly as rational streams, random array indices as
natural numbers (reduced modulo the array length, which is exactly the
range `Math.floor(Math.random() * length)` produces), and the
`sort(() => Math.random() - 0.5)` shuffles as explicit permutation-valued
parameters.
-/

set_option maxRecDepth 8000

namespace GeoDaily

/-- Decimal digit characters interpreted as a natural number (48 is the
code point of the zero digit). -/
def digitsToNat (l : List Char) : Nat :=
  l.foldl (fun acc c => 10 * acc + (c.toNat - 48)) 0

/-- JS `String.prototype.includes` on character lists: is `pat` a contiguous
substring?  The empty pattern is contained in every string. -/
def containsSub (pat : List Char) : List Char → Bool
  | [] => pat.isEmpty
  | c :: rest => pat.isPrefixOf (c :: rest) || containsSub pat rest

/-- JS `s.includes(pat)`. -/
def strIncludes (s pat : String) : Bool := containsSub pat.data s.data

/-- JS `String.prototype.replace` with a plain-string pattern and empty
replacement: removes the first occurrence of `pat` (the only form the
source uses for non-comma patterns). -/
def removeFirst : List Char → List Char → List Char
  | [], _ => []
  | c :: rest, pat =>
    if pat.isPrefixOf (c :: rest) then (c :: rest).drop pat.length
    else c :: removeFirst rest pat

/-- `removeFirst` on strings. -/
def strRemoveFirst (s pat : String) : String := ⟨removeFirst s.data pat.data⟩

/-- script.js:392 — strip commas (a global regex replace), then the first
occurrence each of the km² suffix, the dollar sign and the magnitude words. -/
def cleanNumStr (s : String) : String :=
  let noCommas : String := ⟨s.data.filter (fun c => c ≠ ',')⟩
  strRemoveFirst (strRemoveFirst (strRemoveFirst
    (strRemoveFirst noCommas " km²") "$") " Trillion") " Billion"

/-- JS `parseFloat`, restricted to the grammar occurring in this program:
optional leading spaces, optional sign, decimal digits with an optional
fractional part, trailing junk ignored.  `none` models NaN.  (Exponents,
`Infinity` and hex forms never occur in the data handled here.) -/
def parseFloatQ (s : String) : Option ℚ :=
  let l0 := s.data.dropWhile (fun c => c = ' ')
  let neg : Bool := l0.head? = some '-'
  let l1 := if l0.head? = some '-' ∨ l0.head? = some '+' then l0.tail else l0
  let intPart := l1.takeWhile Char.isDigit
  let l2 := l1.dropWhile Char.isDigit
  let fracPart :=
    match l2 with
    | '.' :: rest => rest.takeWhile Char.isDigit
    | _ => []
  if intPart = [] ∧ fracPart = [] then none
  else
    let mag : ℚ := (digitsToNat intPart : ℚ) +
      (digitsToNat fracPart : ℚ) / (10 : ℚ) ^ fracPart.length
    some (if neg then -mag else mag)

/-- JS `parseInt` with base 10 on the digit strings occurring in the raw
dataset: optional sign, decimal digit prefix; `none` models NaN. -/
def parseIntJs (s : String) : Option ℤ :=
  let l0 := s.data.dropWhile (fun c => c = ' ')
  let neg : Bool := l0.head? = some '-'
  let l1 := if l0.head? = some '-' ∨ l0.head? = some '+' then l0.tail else l0
  let ds := l1.takeWhile Char.isDigit
  if ds = [] then none
  else some (if neg then -(digitsToNat ds : ℤ) else (digitsToNat ds : ℤ))

/-- `Math.floor` on a rational (floor division of numerator by
denominator). -/
def ratFloor (q : ℚ) : ℤ := Int.fdiv q.num (q.den : ℤ)

/-- JS `Number.prototype.toFixed(1)` for the nonnegative values that reach it
in this program: one digit after the decimal point, ties rounded up. -/
def toFixed1 (q : ℚ) : String :=
  let n : Nat := (ratFloor (q * 10 + 1 / 2)).toNat
  toString (n / 10) ++ "." ++ toString (n % 10)

/-- Comma-group a reversed digit list in blocks of three (fuel-driven). -/
def groupRev : Nat → List Char → List Char
  | _, [] => []
  | 0, l => l
  | fuel + 1, l => if l.length ≤ 3 then l else l.take 3 ++ ',' :: groupRev fuel (l.drop 3)

/-- JS `Number.prototype.toLocaleString` on a natural number under the
default en-US grouping: decimal digits grouped in threes by commas. -/
def natLocaleString (n : Nat) : String :=
  let ds := (toString n).data
  ⟨(groupRev ds.length ds.reverse).reverse⟩

/-- JS `Math.round`: round half up. -/
def jsRound (q : ℚ) : ℤ := ratFloor (q + 1 / 2)

/-- JS `String.prototype.toLowerCase` on the ASCII codes occurring here. -/
def strToLower (s : String) : String := ⟨s.data.map Char.toLower⟩

/-- A city record of the runtime dataset (data.json entry, consumed by
script.js).  Coordinates are split into the two array components. -/
structure City where
  name : String
  lat : ℚ
  lon : ℚ
  pop : String
  is_capital : Bool
deriving DecidableEq, Repr, Inhabited

/-- Country stats block: each a formatted string or a sentinel. -/
structure Stats where
  population : String
  area : String
  gdp : String
deriving DecidableEq, Repr, Inhabited

/-- A country record of the runtime dataset. -/
structure Country where
  name : String
  code : String
  continent : String
  lat : ℚ
  lon : ℚ
  stats : Stats
  cities : List City
  difficulty : String
deriving DecidableEq, Repr, Inhabited

/-! ### The distractor generator `makeOptions` (script.js:388-419) -/

/-- Formatting of one perturbed decoy value (script.js:407-415): money
values render as Billion or Trillion with the switch at strictly more than
1000 billions; other values as comma-grouped floored integers, re-adding
the km² suffix when the true value carries one. -/
def fakeStrOf (valStr : String) (isMoney : Bool) (fakeVal : ℚ) : String :=
  if isMoney then
    let billions := fakeVal / 1000000000
    if 1000 < billions then "$" ++ toFixed1 (billions / 1000) ++ " Trillion"
    else "$" ++ toFixed1 billions ++ " Billion"
  else
    let base := natLocaleString (ratFloor fakeVal).toNat
    if strIncludes valStr "km²" then base ++ " km²" else base

/-- The perturbation factor of attempt `n`
(script.js:405, `1 + (Math.random() * 0.8 - 0.4)`). -/
def varyOf (rands : Nat → ℚ) (n : Nat) : ℚ :=
  1 + (rands n * (8 / 10) - 4 / 10)

/-- One iteration body plus loop of `makeOptions` (script.js:402-417).
`fuel` is the number of remaining perturbation attempts (the source bounds
`attempts < 100`, so the loop is entered with fuel 100); `attempts` is the
source's attempt counter; the second component of the result is the value of
`attempts` when the loop exits.  `rands` is the stream of `Math.random()`
draws, indexed by attempt. -/
def makeOptionsGo (valStr : String) (isMoney : Bool) (v : ℚ) (rands : Nat → ℚ) :
    Nat → Nat → List String → List String × Nat
  | 0, attempts, options => (options, attempts)
  | fuel + 1, attempts, options =>
    if 4 ≤ options.length then (options, attempts)
    else
      makeOptionsGo valStr isMoney v rands fuel (attempts + 1)
        (if fakeStrOf valStr isMoney (v * varyOf rands attempts) ∉ options ∧
            fakeStrOf valStr isMoney (v * varyOf rands attempts) ≠ "0" then
          options ++ [fakeStrOf valStr isMoney (v * varyOf rands attempts)]
        else options)

/-- The money magnitude expansion (script.js:396-399): the parsed base value
is scaled by the magnitude word carried by the original string. -/
def moneyExpand (valStr : String) (isMoney : Bool) (v0 : ℚ) : ℚ :=
  if isMoney then
    if strIncludes valStr "Trillion" then v0 * 1000000000000
    else if strIncludes valStr "Billion" then v0 * 1000000000
    else v0
  else v0

/-- `makeOptions` (script.js:388-419) up to the final
`sort(() => Math.random() - 0.5)` shuffle: `none` models the `null` return
for sentinel / unparseable / zero true values; otherwise the built option
list in push order, true value first.  The caller applies an arbitrary
permutation to model the shuffle. -/
def makeOptions (valStr : String) (isMoney : Bool) (rands : Nat → ℚ) :
    Option (List String) :=
  if valStr = "" ∨ valStr = "Unknown" ∨ valStr = "Data Pending" ∨ valStr = "N/A" then
    none
  else
    match parseFloatQ (cleanNumStr valStr) with
    | none => none
    | some v0 =>
      if v0 = 0 then none
      else
        some (makeOptionsGo valStr isMoney (moneyExpand valStr isMoney v0)
          rands 100 0 [valStr]).1

/-- The value of the source's `attempts` counter when `makeOptions` exits its
perturbation loop (0 when the true value was rejected up front). -/
def makeOptionsAttempts (valStr : String) (isMoney : Bool) (rands : Nat → ℚ) : Nat :=
  if valStr = "" ∨ valStr = "Unknown" ∨ valStr = "Data Pending" ∨ valStr = "N/A" then
    0
  else
    match parseFloatQ (cleanNumStr valStr) with
    | none => 0
    | some v0 =>
      if v0 = 0 then 0
      else
        (makeOptionsGo valStr isMoney (moneyExpand valStr isMoney v0)
          rands 100 0 [valStr]).2

/-! ### Candidate pool and selection (script.js:315-385) -/

/-- Effective difficulty of a city (script.js:322-330): a capital inherits the
country tier, a non-capital is demoted one tier harder, capped at extreme. -/
def cityDifficulty (country : Country) (city : City) : String :=
  if city.is_capital then country.difficulty
  else if country.difficulty = "easy" then "medium"
  else if country.difficulty = "medium" then "hard"
  else if country.difficulty = "hard" then "extreme"
  else country.difficulty

/-- Hint radius (script.js:332-344). -/
def hintRadius (country : Country) (city : City) : ℚ :=
  if city.is_capital then
    if country.difficulty = "easy" then 100000
    else if country.difficulty = "medium" then 80000
    else 60000
  else
    if country.difficulty = "easy" then 50000
    else if country.difficulty = "medium" then 40000
    else 30000

/-- Snap radius (script.js:332-344). -/
def snapRadius (country : Country) (city : City) : ℚ :=
  if city.is_capital then
    if country.difficulty = "easy" then 12000
    else if country.difficulty = "medium" then 10000
    else 8000
  else
    if country.difficulty = "easy" then 6000
    else if country.difficulty = "medium" then 4000
    else 2500

/-- A `cityPool` entry (script.js:346-352). -/
structure Candidate where
  countryRef : Country
  city : City
  calculatedDifficulty : String
  hintRadius : ℚ
  snapRadius : ℚ
deriving DecidableEq, Repr, Inhabited

/-- The flattened pool of every (country, city) pair (script.js:319-354). -/
def cityPool (data : List Country) : List Candidate :=
  data.flatMap fun country => country.cities.map fun city =>
    { countryRef := country
      city := city
      calculatedDifficulty := cityDifficulty country city
      hintRadius := hintRadius country city
      snapRadius := snapRadius country city }

/-- The `"country:city"` used-cities key (script.js:365, 384). -/
def usedKey (c : Candidate) : String := c.countryRef.name ++ ":" ++ c.city.name

/-- Tier filter (script.js:357). -/
def tierCandidates (data : List Country) (difficulty : String) : List Candidate :=
  (cityPool data).filter fun c => c.calculatedDifficulty = difficulty

/-- Tier filter with the medium fallback (script.js:360-362). -/
def fallbackCandidates (data : List Country) (difficulty : String) : List Candidate :=
  if tierCandidates data difficulty = [] then tierCandidates data "medium"
  else tierCandidates data difficulty

/-- Exclusion of used cities (script.js:365). -/
def availableCandidates (data : List Country) (difficulty : String)
    (used : List String) : List Candidate :=
  (fallbackCandidates data difficulty).filter fun c => ¬ used.contains (usedKey c)

/-- `selection` before the final safety fallback (script.js:366): used-city
exclusion is ignored whenever it would empty the pool. -/
def preSelection (data : List Country) (difficulty : String)
    (used : List String) : List Candidate :=
  if (availableCandidates data difficulty used).length > 0 then
    availableCandidates data difficulty used
  else fallbackCandidates data difficulty

/-- The final selection pool (script.js:366-372): an empty selection falls
back to the whole `cityPool`. -/
def selectionPool (data : List Country) (difficulty : String)
    (used : List String) : List Candidate :=
  if preSelection data difficulty used = [] then cityPool data
  else preSelection data difficulty used

/-- The uniformly random pick from the selection pool (script.js:374-379).
`pick % length` is exactly the range of `Math.floor(Math.random() * length)`;
`none` models the `return null` on an empty pool. -/
def selectCandidate (data : List Country) (difficulty : String)
    (used : List String) (pick : Nat) : Option Candidate :=
  (selectionPool data difficulty used)[pick % (selectionPool data difficulty used).length]?

/-! ### Flag options (script.js:422-428) -/

/-- A flag option.  The source stores `{ url, is_correct }` with
`url = "https://flagcdn.com/w320/" + code + ".png"`; the code determines the
url, so the embedding stores the code and derives the url by `flagUrl`. -/
structure FlagOpt where
  code : String
  is_correct : Bool
deriving DecidableEq, Repr, Inhabited

/-- The flag CDN url of a country code (script.js:422, 426). -/
def flagUrl (code : String) : String := "https://flagcdn.com/w320/" ++ code ++ ".png"

/-- Body of the `while (flagOptions.length < 4)` loop (script.js:423-428):
each step draws a random country `r` and pushes it as an incorrect option
when its code differs from the target's and no already-chosen option's url
contains `r.code` as a substring.  The source loop runs until length 4 is
reached; here each step consumes one entry of `picks`, so a run whose picks
never complete the list models the loop still spinning. -/
def flagLoop (data : List Country) (correct : Country) :
    List Nat → List FlagOpt → List FlagOpt
  | [], acc => acc
  | p :: ps, acc =>
    if 4 ≤ acc.length then acc
    else
      match data[p % data.length]? with
      | none => acc
      | some r =>
        if r.code ≠ correct.code ∧
            ¬ acc.any (fun f => strIncludes (flagUrl f.code) r.code) then
          flagLoop data correct ps (acc ++ [⟨r.code, false⟩])
        else flagLoop data correct ps acc

/-- `flagOptions` built from the correct country plus random decoys
(script.js:422-428), before the final shuffle. -/
def buildFlagOptions (data : List Country) (correct : Country)
    (picks : List Nat) : List FlagOpt :=
  flagLoop data correct picks [⟨correct.code, true⟩]

/-! ### The Round record (script.js:430-462) -/

/-- A stats-quiz entry (script.js:433-443). -/
structure QuizItem where
  question : String
  correct : String
  options : List String
deriving DecidableEq, Repr, Inhabited

/-- The person sub-record of a round. -/
structure Person where
  name : String
  role : String
  bio : String
  fact : String
deriving DecidableEq, Repr, Inhabited

/-- The city sub-record of a round (script.js:452-458). -/
structure RoundCity where
  name : String
  lat : ℚ
  lon : ℚ
  stats_quiz : List (String × QuizItem)
  hint_radius : ℚ
  snap_radius : ℚ
deriving DecidableEq, Repr, Inhabited

/-- The live round record returned by `generateLocalGameData`
(script.js:445-462).  The insertion-ordered quiz maps are association
lists. -/
structure Round where
  country : String
  country_code : String
  continent : String
  lat : ℚ
  lon : ℚ
  flag_options : List FlagOpt
  stats_quiz : List (String × QuizItem)
  city : RoundCity
  historical_fact : String
  person : Person
  history : String
deriving DecidableEq, Repr, Inhabited

/-- All the random draws one call of `generateLocalGameData` consumes:
the candidate pick, the flag-decoy index stream, one `Math.random()` stream
per stats quiz item, and the two `sort(() => Math.random() - 0.5)` shuffles
(an arbitrary list-to-list function; theorems that depend on it assume it
permutes its input, which is all a random comparator sort guarantees). -/
structure Rand where
  pick : Nat
  flagPicks : List Nat
  randsPop : Nat → ℚ
  randsArea : Nat → ℚ
  randsGdp : Nat → ℚ
  randsCityPop : Nat → ℚ
  shuffleOpts : List String → List String
  shuffleFlags : List FlagOpt → List FlagOpt

/-- The source's shuffles permute their input. -/
def FairRand (rng : Rand) : Prop :=
  (∀ l, List.Perm (rng.shuffleOpts l) l) ∧ (∀ l, List.Perm (rng.shuffleFlags l) l)

/-- `generateLocalGameData` (script.js:315-463).  Returns the round together
with the updated `usedCities` set (the source mutates `this.usedCities`
before building the quizzes).  `none` models both `return null` paths
(empty dataset / empty pool) and a flag-decoy loop that never reaches four
options (in the source that loop would spin forever). -/
def generateLocalGameData (data : List Country) (difficulty : String)
    (used : List String) (rng : Rand) : Option (Round × List String) :=
  if data = [] then none
  else
    match selectCandidate data difficulty used rng.pick with
    | none => none
    | some result =>
      let country := result.countryRef
      let city := result.city
      let used' := used.insert (country.name ++ ":" ++ city.name)
      let flagOptions := buildFlagOptions data country rng.flagPicks
      if flagOptions.length < 4 then none
      else
        let countryQuiz : List (String × QuizItem) :=
          (match makeOptions country.stats.population false rng.randsPop with
           | some opts => [("population",
               ⟨"What is the population size?", country.stats.population,
                rng.shuffleOpts opts⟩)]
           | none => []) ++
          (match makeOptions country.stats.area false rng.randsArea with
           | some opts => [("area",
               ⟨"What is the total area?", country.stats.area,
                rng.shuffleOpts opts⟩)]
           | none => []) ++
          (match makeOptions country.stats.gdp true rng.randsGdp with
           | some opts => [("gdp",
               ⟨"What is the approximate GDP?", country.stats.gdp,
                rng.shuffleOpts opts⟩)]
           | none => [])
        let cityQuiz : List (String × QuizItem) :=
          match makeOptions city.pop false rng.randsCityPop with
          | some opts => [("population",
              ⟨"What is the population of " ++ city.name ++ "?", city.pop,
               rng.shuffleOpts opts⟩)]
          | none => []
        some
          ({ country := country.name
             country_code := country.code
             continent := country.continent
             lat := country.lat
             lon := country.lon
             flag_options := rng.shuffleFlags flagOptions
             stats_quiz := countryQuiz
             city :=
               { name := city.name
                 lat := city.lat
                 lon := city.lon
                 stats_quiz := cityQuiz
                 hint_radius := result.hintRadius
                 snap_radius := result.snapRadius }
             historical_fact := "Loading interesting history..."
             person :=
               ⟨"Loading...", "Famous Figure",
                "We are finding a local legend...", "Did you know? loading..."⟩
             history := "Loading context..." }, used')

/-! ### Phase sequencer (script.js:614-624) -/

/-- The cyclic phase list (script.js:615). -/
def phasesList : List String :=
  ["COUNTRY_GUESS", "FLAG_GUESS", "STATS_COUNTRY", "CITY_FIND", "STATS_CITY",
   "HISTORICAL_FACT", "PERSON_GUESS", "HISTORY"]

/-- Result of one `nextPhase()` call: either a plain phase change or the
full round restart `startGame()`. -/
inductive PhaseStep where
  | advanceTo (p : String)
  | restart
deriving DecidableEq, Repr

/-- `nextPhase` (script.js:614-624): `indexOf` yields -1 for a phase outside
the list, `-1 < 7` holds, and `phases[0]` is then taken; from the last
listed phase `startGame()` is called instead. -/
def nextPhase (phase : String) : PhaseStep :=
  let currentIdx : ℤ :=
    match phasesList.indexOf? phase with
    | some i => (i : ℤ)
    | none => -1
  if currentIdx < (phasesList.length : ℤ) - 1 then
    .advanceTo (phasesList.getD (currentIdx + 1).toNat "")
  else .restart

/-- One advance on (phase, completed-round count).  A restart runs
`startGame()` (script.js:285-313), which passes through the transient
LOADING phase and, once the new round is generated, lands in COUNTRY_GUESS
with the round counter bumped. -/
def stepRound : String × Nat → String × Nat
  | (phase, n) =>
    match nextPhase phase with
    | .advanceTo q => (q, n)
    | .restart => ("COUNTRY_GUESS", n + 1)

/-! ### CITY_FIND click handling (script.js:540-558) -/

/-- Outcome of a CITY_FIND map click: whether the toast reported success,
the missed-by distance shown (in whole km) if any, and whether an
auto-advance to the next phase was scheduled. -/
structure ClickOutcome where
  success : Bool
  reportedMissKm : Option ℤ
  schedulesAdvance : Bool
deriving DecidableEq, Repr

/-- `handleMapClick` in phase CITY_FIND (script.js:543-557): `d` is the
geographic distance in meters from the click to the true city coordinates,
`tolerance` the round's snap radius.  Success iff `d < tolerance`; a miss
reports `Math.round(d / 1000)` km and schedules no advance. -/
def handleCityClick (d tolerance : ℚ) : ClickOutcome :=
  if d < tolerance then ⟨true, none, true⟩
  else ⟨false, some (jsRound (d / 1000)), false⟩

/-- Entering STATS_CITY (script.js:819-823): an empty city stats-quiz map
calls `nextPhase()` immediately, otherwise the phase waits for quiz input.
Returns the phase the UI ends up showing. -/
def statsCityEntry (r : Round) : String :=
  if r.city.stats_quiz.length = 0 then
    match nextPhase "STATS_CITY" with
    | .advanceTo q => q
    | .restart => "COUNTRY_GUESS"
  else "STATS_CITY"

/-! ### Enrichment merge (script.js:465-492) -/

/-- The narrative payload returned by the enrichment gateway. -/
structure Enrichment where
  historical_fact : String
  person : Person
  history : String
deriving DecidableEq, Repr, Inhabited

/-- The game state the enrichment callback touches: the live round (if any)
and whether an API client is configured. -/
structure GameState where
  currentData : Option Round
  hasClient : Bool
deriving DecidableEq, Repr, Inhabited

/-- The argument capture at the start of `enrichGameData` (script.js:466-470):
the request is built from whatever round is live at call time; no request is
made without a client or a live round. -/
def enrichRequestArgs (st : GameState) : Option (String × String) :=
  if st.hasClient then
    match st.currentData with
    | some r => some (r.country, r.city.name)
    | none => none
  else none

/-- The three narrative field writes of the success merge
(script.js:474-476). -/
def mergeEnrichment (r : Round) (e : Enrichment) : Round :=
  { r with person := e.person, history := e.history,
           historical_fact := e.historical_fact }

/-- The success merge after `await` (script.js:473-476): the response fields
are written into `this.currentData` as it is *at resolution time* — there is
no comparison against the round the request was made for. -/
def enrichResolveSuccess (st : GameState) (e : Enrichment) : GameState :=
  match st.currentData with
  | none => st
  | some r => { st with currentData := some (mergeEnrichment r e) }

/-- The failure handler (script.js:482-491): `historical_fact` and `history`
are set to the unavailable sentinel; `person.name` and `person.bio` are
overwritten only while `person.name` still holds the loading placeholder;
`person.role` and `person.fact` are not touched. -/
def enrichFailureMerge (r : Round) : Round :=
  { r with
    historical_fact := "Could not load history."
    history := "Could not load history."
    person :=
      if r.person.name = "Loading..." then
        { r.person with name := "Unknown", bio := "Could not fetch data." }
      else r.person }

/-- The failure handler applied to the live state. -/
def enrichResolveFailure (st : GameState) : GameState :=
  match st.currentData with
  | none => st
  | some r => { st with currentData := some (enrichFailureMerge r) }

/-! ### The dataset aggregation script (src/fetch_data.js) -/

/-- A raw city of the countries+states+cities source document. -/
structure RawCity where
  name : String
  latitude : String
  longitude : String
deriving DecidableEq, Repr, Inhabited

/-- A raw state: only its city list is consumed. -/
structure RawState where
  cities : List RawCity
deriving DecidableEq, Repr, Inhabited

/-- A raw country of the combined source document.  Optional fields model
JS null/undefined. -/
structure RawCountry where
  name : String
  iso2 : String
  capital : String
  latitude : String
  longitude : String
  population : Option String
  region : String
  states : List RawState
deriving DecidableEq, Repr, Inhabited

/-- A stats entry of the countries source document.  `area_sq_km` is a
number or null; `gdp` a numeric string (millions of dollars) or null. -/
structure StatEntry where
  iso2 : String
  area_sq_km : Option ℚ
  gdp : Option String
deriving DecidableEq, Repr, Inhabited

/-- JS truthiness of an optional string. -/
def truthyStr : Option String → Bool
  | none => false
  | some s => s ≠ ""

/-- City flattening (fetch_data.js:61-78): every produced city plays the
`pop: "Unknown"` sentinel; cities without both coordinates are dropped
(string truthiness); a city is the capital when its name equals the
country's capital field. -/
def buildCities (c : RawCountry) : List City :=
  c.states.flatMap fun st =>
    (st.cities.filter fun city => city.latitude ≠ "" ∧ city.longitude ≠ "").map
      fun city =>
        { name := city.name
          lat := (parseFloatQ city.latitude).getD 0
          lon := (parseFloatQ city.longitude).getD 0
          pop := "Unknown"
          is_capital := city.name = c.capital }

/-- The merged country record (fetch_data.js:36-92).  `toFixed1` and
`natLocaleString` mirror the JS number formatting; a NaN `parseInt` of the
population renders as "NaN" exactly as in JS. -/
def buildCountry (statsData : List StatEntry) (c : RawCountry) : Country :=
  let stats := statsData.find? fun s => s.iso2 = c.iso2
  let area : Option ℚ := match stats with
    | some s => s.area_sq_km
    | none => none
  let areaStr : String := match area with
    | some a => if a = 0 then "Unknown" else natLocaleString (ratFloor a).toNat ++ " km²"
    | none => "Unknown"
  let gdpM : Option ℚ := match stats with
    | some s => match s.gdp with
      | some g => if g = "" then some 0 else parseFloatQ g
      | none => some 0
    | none => some 0
  let gdpStr : String := match gdpM with
    | some g =>
      if 0 < g then
        let billions := g / 1000
        if 1000 ≤ billions then "$" ++ toFixed1 (billions / 1000) ++ " Trillion"
        else "$" ++ toFixed1 billions ++ " Billion"
      else "Data Pending"
    | none => "Data Pending"
  let countryPop : Option ℤ := match c.population with
    | some p => if p = "" then some 0 else parseIntJs p
    | none => some 0
  let popGT (t : ℤ) : Bool := match countryPop with
    | some p => t < p
    | none => false
  let gdpGT (t : ℚ) : Bool := match gdpM with
    | some g => t < g
    | none => false
  let countryDifficulty : String :=
    if gdpGT 500000 || popGT 60000000 then "easy"
    else if gdpGT 50000 || popGT 15000000 then "medium"
    else if gdpGT 5000 || popGT 2000000 then "hard"
    else "extreme"
  let popStr : String := match c.population with
    | none => "Unknown"
    | some p =>
      if p = "" then "Unknown"
      else match parseIntJs p with
        | some n => natLocaleString n.toNat
        | none => "NaN"
  { name := c.name
    code := strToLower c.iso2
    continent := c.region
    lat := (parseFloatQ c.latitude).getD 0
    lon := (parseFloatQ c.longitude).getD 0
    stats := { population := popStr, area := areaStr, gdp := gdpStr }
    cities := buildCities c
    difficulty := countryDifficulty }

/-- The whole aggregation (fetch_data.js:36-93): map then drop countries
without cities. -/
def aggregate (statsData : List StatEntry) (countries : List RawCountry) :
    List Country :=
  (countries.map (buildCountry statsData)).filter fun country =>
    country.cities.length > 0

/-! ### Concrete test fixtures -/

/-- The single capital city of the spec's end-to-end example. -/
def varoston : City := ⟨"Varoston", 10, 10, "1,000,000", true⟩

/-- The spec's one easy-tier example country. -/
def varos : Country :=
  ⟨"Varos", "va", "Europe", 10, 10, ⟨"Unknown", "Unknown", "Unknown"⟩,
   [varoston], "easy"⟩

/-- The candidate `generateLocalGameData` derives for Varoston. -/
def varosCandidate : Candidate :=
  { countryRef := varos, city := varoston, calculatedDifficulty := "easy"
    hintRadius := 100000, snapRadius := 12000 }

/-- A small helper to build fixture countries. -/
def mkCountry (nm cd : String) (cs : List City) (diff : String) : Country :=
  ⟨nm, cd, "X", 0, 0, ⟨"Unknown", "Unknown", "Unknown"⟩, cs, diff⟩

/-- A nonempty dataset whose only country has no cities. -/
def noCityLand : Country := mkCountry "Nocityland" "qq" [] "easy"

/-- A four-country dataset (enough distinct codes for the flag loop). -/
def sampleData : List Country :=
  [varos,
   mkCountry "Bbland" "bb" [⟨"Bbtown", 1, 1, "Unknown", true⟩] "medium",
   mkCountry "Ccland" "cc" [⟨"Cctown", 2, 2, "Unknown", false⟩] "medium",
   mkCountry "Ddland" "dd" [⟨"Ddtown", 3, 3, "Unknown", true⟩] "hard"]

/-- A concrete draw record with identity shuffles: flag decoys come from
indices 1, 2, 3 and the `Math.random()` streams give three distinct
perturbations. -/
def sampleRand : Rand :=
  { pick := 0
    flagPicks := [1, 2, 3]
    randsPop := fun n => if n = 0 then 0 else if n = 1 then 1 / 4 else 3 / 4
    randsArea := fun _ => 1 / 2
    randsGdp := fun _ => 1 / 2
    randsCityPop := fun n => if n = 0 then 0 else if n = 1 then 1 / 4 else 3 / 4
    shuffleOpts := id
    shuffleFlags := id }

/-- The round `generateLocalGameData` produces on `sampleData` under
`sampleRand` (country Varos, city Varoston). -/
def sampleRound : Round :=
  ((generateLocalGameData sampleData "easy" [] sampleRand).getD default).1

/-- The used-cities set after that call. -/
def sampleUsed : List String :=
  ((generateLocalGameData sampleData "easy" [] sampleRand).getD default).2

/-- Draws for the follow-up round: flag decoys from indices 0, 2, 3. -/
def sampleRand2 : Rand :=
  { sampleRand with flagPicks := [0, 2, 3] }

/-- A second round on the same dataset (country Bbland, city Bbtown),
standing in for the newer round after a restart. -/
def sampleRound2 : Round :=
  ((generateLocalGameData sampleData "medium" sampleUsed sampleRand2).getD default).1

/-- An enrichment response for (Varos, Varoston), resolving late. -/
def staleEnrichment : Enrichment :=
  ⟨"A fact about Varoston",
   ⟨"V. Famous", "Varos Founder", "Bio of V.", "Did you know? V."⟩,
   "History of Varos"⟩

/-- Draws hitting the exact Trillion/Billion boundary: the first attempt's
factor 1 keeps the true value 1 Trillion, formatted from 1000 billions. -/
def c6rands : Nat → ℚ :=
  fun n => if n = 0 then 1 / 2 else if n = 1 then 3 / 4 else 7 / 8

/-- Nonnegative draws giving three distinct Trillion-range decoys. -/
def c6wrands : Nat → ℚ :=
  fun n => if n = 0 then 0 else if n = 1 then 1 / 4 else 3 / 4

/-- Four raw countries with one located city each, distinct safe codes. -/
def rawSample : List RawCountry :=
  [{ name := "Aaland", iso2 := "AA", capital := "Aatown", latitude := "1.5",
     longitude := "2.5", population := some "70000000", region := "X",
     states := [⟨[⟨"Aatown", "1.5", "2.5"⟩, ⟨"Aaville", "1.6", ""⟩]⟩] },
   { name := "Bbland", iso2 := "BB", capital := "Bbtown", latitude := "3",
     longitude := "4", population := none, region := "Y",
     states := [⟨[⟨"Bbtown", "3", "4"⟩]⟩] },
   { name := "Eeland", iso2 := "EE", capital := "Eetown", latitude := "5",
     longitude := "6", population := none, region := "Z",
     states := [⟨[⟨"Eetown", "5", "6"⟩]⟩] },
   { name := "Ffland", iso2 := "FF", capital := "Fftown", latitude := "7",
     longitude := "8", population := none, region := "W",
     states := [⟨[⟨"Fftown", "7", "8"⟩]⟩] }]

/-- One stats entry, matched by iso2 with the first raw country. -/
def rawStats : List StatEntry := [⟨"AA", some 1000, some "600000"⟩]

/-- The round generated from the aggregated dataset (country Aaland). -/
def aggRound : Round :=
  ((generateLocalGameData (aggregate rawStats rawSample) "easy" []
    sampleRand).getD default).1

/-- The used-cities set after that call. -/
def aggUsed : List String :=
  ((generateLocalGameData (aggregate rawStats rawSample) "easy" []
    sampleRand).getD default).2

unseal Rat.mul Rat.inv Rat.add Rat.sub

/-! ### Claim C4 — phase cycle -/

/-- Claim C4 fails as stated: from COUNTRY_GUESS, seven `advance()` calls
land on HISTORY (the eighth phase of the cycle), not back at a
COUNTRY_GUESS-equivalent fresh-round state. -/
theorem c4_seven_advances_counterexample :
    (stepRound^[7]) ("COUNTRY_GUESS", 0) = ("HISTORY", 0) ∧
    ((stepRound^[7]) ("COUNTRY_GUESS", 0)).1 ≠ "COUNTRY_GUESS" := by
  decide

/-- Claim C4 (amended): starting from COUNTRY_GUESS, calling `advance()`
EIGHT times returns to a COUNTRY_GUESS-equivalent state with a fresh round;
the first seven calls visit the remaining seven cyclic phases exactly once
in the documented order; `advance()` from any non-terminal phase moves to
the next phase in the list; and `advance()` from HISTORY triggers a full
round restart rather than simply cycling. -/
theorem c4_phase_cycle_amended (n : Nat) :
    (stepRound^[8]) ("COUNTRY_GUESS", n) = ("COUNTRY_GUESS", n + 1) ∧
    (∀ i, i < 8 → (stepRound^[i]) ("COUNTRY_GUESS", n) = (phasesList.getD i "", n)) ∧
    (∀ i, i + 1 < phasesList.length →
      nextPhase (phasesList.getD i "") = .advanceTo (phasesList.getD (i + 1) "")) ∧
    nextPhase "HISTORY" = .restart := by
  refine ⟨rfl, ?_, ?_, rfl⟩
  · intro i hi
    have hmem : i ∈ List.range 8 := List.mem_range.mpr hi
    fin_cases hmem <;> rfl
  · intro i hi
    have hi7 : i < 7 := by simp only [phasesList, List.length] at hi; omega
    have hmem : i ∈ List.range 7 := List.mem_range.mpr hi7
    fin_cases hmem <;> rfl

/-- Witness for C4: the amended theorem applied at round counter 0 and
phase index 3. -/
theorem c4_phase_cycle_witness :
    (stepRound^[8]) ("COUNTRY_GUESS", 0) = ("COUNTRY_GUESS", 1) ∧
    (stepRound^[3]) ("COUNTRY_GUESS", 0) = ("CITY_FIND", 0) ∧
    nextPhase "HISTORY" = .restart := by
  have h := c4_phase_cycle_amended 0
  exact ⟨h.1, h.2.1 3 (by decide), h.2.2.2⟩

/-! ### Claim C7 — CITY_FIND acceptance -/

/-- Claim C7: in phase CITY_FIND a click at distance `d` succeeds (and
schedules the auto-advance) iff `d` is strictly below the snap radius; with
snap radius 3000 a click at 2999 succeeds and one at 3000 fails; a miss
reports the distance rounded to whole kilometers and schedules no
advance. -/
theorem c7_city_find_acceptance (d tolerance : ℚ) :
    ((handleCityClick d tolerance).success = true ↔ d < tolerance) ∧
    (d < tolerance → handleCityClick d tolerance = ⟨true, none, true⟩) ∧
    (¬ d < tolerance →
      handleCityClick d tolerance = ⟨false, some (jsRound (d / 1000)), false⟩) ∧
    (handleCityClick 2999 3000).success = true ∧
    (handleCityClick 3000 3000).success = false := by
  refine ⟨?_, ?_, ?_, by decide, by decide⟩ <;>
    · unfold handleCityClick
      split <;> simp_all

/-- Witness for C7: the acceptance theorem applied at the boundary inputs
2999 m and 3000 m against a 3000 m snap radius. -/
theorem c7_city_find_witness :
    handleCityClick 2999 3000 = ⟨true, none, true⟩ ∧
    handleCityClick 3000 3000 = ⟨false, some 3, false⟩ := by
  have h1 := (c7_city_find_acceptance 2999 3000).2.1 (by norm_num)
  have h2 := (c7_city_find_acceptance 3000 3000).2.2.1 (by norm_num)
  refine ⟨h1, ?_⟩
  rw [h2]
  decide

/-! ### Claim C8 — enrichment failure sentinels -/

/-- Claim C8 fails as stated: after the failure handler runs on the freshly
generated round, `person.fact` still holds its placeholder loading text. -/
theorem c8_loading_fact_retained_counterexample :
    (enrichFailureMerge sampleRound).person.fact = "Did you know? loading..." ∧
    strIncludes (enrichFailureMerge sampleRound).person.fact "loading" = true := by
  decide

/-- Claim C8 (amended): on enrichment failure, `historical_fact` and
`history` are set to the explicit unavailable sentinel; `person.name` and
`person.bio` are overwritten with unavailable sentinels only when
`person.name` still holds the loading placeholder; `person.fact` and
`person.role` are left unchanged, so the fact field retains its placeholder
loading text. -/
theorem c8_failure_merge_amended (r : Round) :
    (enrichFailureMerge r).historical_fact = "Could not load history." ∧
    (enrichFailureMerge r).history = "Could not load history." ∧
    (r.person.name = "Loading..." →
      (enrichFailureMerge r).person.name = "Unknown" ∧
      (enrichFailureMerge r).person.bio = "Could not fetch data.") ∧
    (enrichFailureMerge r).person.fact = r.person.fact ∧
    (enrichFailureMerge r).person.role = r.person.role := by
  unfold enrichFailureMerge
  refine ⟨rfl, rfl, ?_, ?_, ?_⟩ <;> simp only <;> split <;> simp_all

/-- Witness for C8: the amended theorem applied to the concretely generated
round, whose person name is the loading placeholder. -/
theorem c8_failure_merge_witness :
    (enrichFailureMerge sampleRound).historical_fact = "Could not load history." ∧
    (enrichFailureMerge sampleRound).person.name = "Unknown" ∧
    (enrichFailureMerge sampleRound).person.bio = "Could not fetch data." := by
  have h := c8_failure_merge_amended sampleRound
  have hn := h.2.2.1 (by decide)
  exact ⟨h.1, hn.1, hn.2⟩

/-! ### Claim C9 — staleness of late enrichment responses -/

/-- Claim C9 fails as stated: an enrichment requested for the Varos round
that resolves after the live round was replaced by the Bbland round is
merged into the Bbland round — the merge performs no round-identity
check. -/
theorem c9_stale_enrichment_applied_counterexample :
    enrichRequestArgs ⟨some sampleRound, true⟩ = some ("Varos", "Varoston") ∧
    sampleRound2.country = "Bbland" ∧
    ((enrichResolveSuccess ⟨some sampleRound2, true⟩ staleEnrichment).currentData.getD
      default).country = "Bbland" ∧
    ((enrichResolveSuccess ⟨some sampleRound2, true⟩ staleEnrichment).currentData.getD
      default).historical_fact = "A fact about Varoston" := by
  decide

/-- Claim C9 (amended): the merge step performs no staleness check at all —
whenever a round is live at resolution time, the response's narrative fields
are written into that round, regardless of which round the request was made
for. -/
theorem c9_no_staleness_guard_amended (st : GameState) (e : Enrichment) (r : Round)
    (h : st.currentData = some r) :
    (enrichResolveSuccess st e).currentData = some (mergeEnrichment r e) := by
  unfold enrichResolveSuccess
  rw [h]

/-- Witness for C9: the amended theorem applied to a state holding the
Bbland round and the stale Varos response. -/
theorem c9_no_staleness_guard_witness :
    (enrichResolveSuccess ⟨some sampleRound2, true⟩ staleEnrichment).currentData =
      some (mergeEnrichment sampleRound2 staleEnrichment) :=
  c9_no_staleness_guard_amended ⟨some sampleRound2, true⟩ staleEnrichment
    sampleRound2 rfl

/-! ### Loop invariants of the distractor generator -/

/-- The perturbation loop preserves: the true value stays a member, the
option list stays duplicate-free, and its length never exceeds 4. -/
theorem makeOptionsGo_invariant (valStr : String) (isMoney : Bool) (v : ℚ)
    (rands : Nat → ℚ) :
    ∀ fuel attempts options, valStr ∈ options → options.Nodup →
      options.length ≤ 4 →
      valStr ∈ (makeOptionsGo valStr isMoney v rands fuel attempts options).1 ∧
      (makeOptionsGo valStr isMoney v rands fuel attempts options).1.Nodup ∧
      (makeOptionsGo valStr isMoney v rands fuel attempts options).1.length ≤ 4 := by
  intro fuel
  induction fuel with
  | zero =>
    intro attempts options hmem hnd hlen
    exact ⟨hmem, hnd, hlen⟩
  | succ fuel ih =>
    intro attempts options hmem hnd hlen
    rw [makeOptionsGo]
    split
    · exact ⟨hmem, hnd, hlen⟩
    · rename_i hlt
      split
      · rename_i hadd
        apply ih
        · exact List.mem_append_left _ hmem
        · simp [List.nodup_append, hnd, hadd.1]
        · simp only [List.length_append, List.length_singleton]
          omega
      · exact ih _ _ hmem hnd hlen

/-- If the loop exits with fewer than 4 options it consumed all its fuel:
the exit value of the attempt counter is the initial one plus the fuel. -/
theorem makeOptionsGo_attempts (valStr : String) (isMoney : Bool) (v : ℚ)
    (rands : Nat → ℚ) :
    ∀ fuel attempts options,
      (makeOptionsGo valStr isMoney v rands fuel attempts options).1.length < 4 →
      (makeOptionsGo valStr isMoney v rands fuel attempts options).2 =
        attempts + fuel := by
  intro fuel
  induction fuel with
  | zero =>
    intro attempts options _
    rfl
  | succ fuel ih =>
    intro attempts options hshort
    rw [makeOptionsGo] at hshort ⊢
    by_cases hfull : 4 ≤ options.length
    · rw [if_pos hfull] at hshort ⊢
      simp only at hshort
      omega
    · rw [if_neg hfull] at hshort ⊢
      rw [ih _ _ hshort]
      omega

/-- Every option the loop returns was already present or is the formatted
perturbation of the base value by some attempt's draw. -/
theorem makeOptionsGo_mem_src (valStr : String) (isMoney : Bool) (v : ℚ)
    (rands : Nat → ℚ) :
    ∀ fuel attempts options s,
      s ∈ (makeOptionsGo valStr isMoney v rands fuel attempts options).1 →
      s ∈ options ∨ ∃ n, s = fakeStrOf valStr isMoney (v * varyOf rands n) := by
  intro fuel
  induction fuel with
  | zero =>
    intro attempts options s hs
    exact Or.inl hs
  | succ fuel ih =>
    intro attempts options s hs
    rw [makeOptionsGo] at hs
    split at hs
    · exact Or.inl hs
    · split at hs
      · rcases ih _ _ _ hs with hmem | hnew
        · rcases List.mem_append.1 hmem with h | h
          · exact Or.inl h
          · exact Or.inr ⟨attempts, List.mem_singleton.1 h⟩
        · exact Or.inr hnew
      · exact ih _ _ _ hs

/-! ### Claim C3 — makeOptions contract -/

/-- Claim C3: `makeOptions` returns absent exactly when the true value is a
"no data" sentinel, fails to parse, or parses to zero; otherwise — under any
permutation the final random sort may apply — it returns at most 4 options,
all distinct, with the true value present exactly once, and fewer than 4
only when all 100 perturbation attempts were exhausted. -/
theorem c3_makeOptions_spec (valStr : String) (isMoney : Bool) (rands : Nat → ℚ) :
    (makeOptions valStr isMoney rands = none ↔
      (valStr = "" ∨ valStr = "Unknown" ∨ valStr = "Data Pending" ∨ valStr = "N/A" ∨
       parseFloatQ (cleanNumStr valStr) = none ∨
       parseFloatQ (cleanNumStr valStr) = some 0)) ∧
    (∀ out, makeOptions valStr isMoney rands = some out →
      ∀ final, List.Perm final out →
        final.length ≤ 4 ∧ final.Nodup ∧ final.count valStr = 1 ∧
        (final.length < 4 → makeOptionsAttempts valStr isMoney rands = 100)) := by
  constructor
  · constructor
    · intro h
      unfold makeOptions at h
      split at h
      · rename_i hsent
        tauto
      · split at h
        · rename_i hpn
          exact Or.inr (Or.inr (Or.inr (Or.inr (Or.inl hpn))))
        · rename_i v0 hpv
          split at h
          · rename_i hz
            subst hz
            exact Or.inr (Or.inr (Or.inr (Or.inr (Or.inr hpv))))
          · exact absurd h (by simp)
    · intro h
      unfold makeOptions
      split
      · rfl
      · rename_i hsent
        split
        · rfl
        · rename_i v0 hpv
          split
          · rfl
          · rename_i hz
            exfalso
            rcases h with h | h | h | h | h | h
            · exact hsent (Or.inl h)
            · exact hsent (Or.inr (Or.inl h))
            · exact hsent (Or.inr (Or.inr (Or.inl h)))
            · exact hsent (Or.inr (Or.inr (Or.inr h)))
            · rw [hpv] at h
              cases h
            · rw [hpv] at h
              exact hz (Option.some_injective _ h)
  · intro out hout final hperm
    unfold makeOptions at hout
    split at hout
    · cases hout
    · rename_i hsent
      split at hout
      · cases hout
      · rename_i v0 hpv
        split at hout
        · cases hout
        · rename_i hz
          have hsome := Option.some_injective _ hout
          have hinv := makeOptionsGo_invariant valStr isMoney
            (moneyExpand valStr isMoney v0) rands 100 0 [valStr]
            (List.mem_singleton_self valStr) (List.nodup_singleton valStr)
            (by simp)
          rw [hsome] at hinv
          have hlen := hperm.length_eq
          have hcount : final.count valStr = 1 := by
            rw [hperm.count_eq]
            exact List.count_eq_one_of_mem hinv.2.1 hinv.1
          refine ⟨by omega, hperm.nodup_iff.2 hinv.2.1, hcount, ?_⟩
          intro hshort
          have hatt := makeOptionsGo_attempts valStr isMoney
            (moneyExpand valStr isMoney v0) rands 100 0 [valStr]
            (by rw [hsome]; omega)
          unfold makeOptionsAttempts
          rw [if_neg hsent]
          split
          · rename_i hpn
            rw [hpv] at hpn
            cases hpn
          · rename_i v1 hpv1
            rw [hpv] at hpv1
            have hv01 := Option.some_injective _ hpv1
            subst hv01
            rw [if_neg hz]
            simpa using hatt

/-- Witness for C3: the spec theorem applied to the true value "1,000,000"
with draws that produce three distinct decoys. -/
theorem c3_makeOptions_witness :
    (["1,000,000", "600,000", "800,000", "1,200,000"] : List String).length ≤ 4 ∧
    (["1,000,000", "600,000", "800,000", "1,200,000"] : List String).Nodup ∧
    (["1,000,000", "600,000", "800,000", "1,200,000"] : List String).count
      "1,000,000" = 1 := by
  have h := (c3_makeOptions_spec "1,000,000" false
      (fun n => if n = 0 then 0 else if n = 1 then 1 / 4 else 3 / 4)).2
    ["1,000,000", "600,000", "800,000", "1,200,000"]
    (by decide)
    ["1,000,000", "600,000", "800,000", "1,200,000"] (List.Perm.refl _)
  exact ⟨h.1, h.2.1, h.2.2.1⟩

/-! ### Claim C6 — money formatting -/

/-- A money decoy strictly above 1000 billions formats as Trillion. -/
theorem fakeStrOf_money_trillion (valStr : String) (v : ℚ)
    (h : 1000 < v / 1000000000) :
    fakeStrOf valStr true v =
      "$" ++ toFixed1 (v / 1000000000 / 1000) ++ " Trillion" := by
  unfold fakeStrOf
  simp [h]

/-- A money decoy at or below 1000 billions formats as Billion — including
the exact boundary value of 1000 billions. -/
theorem fakeStrOf_money_billion (valStr : String) (v : ℚ)
    (h : v / 1000000000 ≤ 1000) :
    fakeStrOf valStr true v =
      "$" ++ toFixed1 (v / 1000000000) ++ " Billion" := by
  unfold fakeStrOf
  simp [not_lt.mpr h]

/-- Claim C6 fails as stated: a decoy worth exactly 1000 Billion (which is
"at least 1000 Billion") is produced and formatted as "$1000.0 Billion",
not as a Trillion string. -/
theorem c6_trillion_boundary_counterexample :
    makeOptions "$1.0 Trillion" true c6rands =
      some ["$1.0 Trillion", "$1000.0 Billion", "$1.2 Trillion", "$1.3 Trillion"] ∧
    fakeStrOf "$1.0 Trillion" true 1000000000000 = "$1000.0 Billion" ∧
    (1000000000000 : ℚ) / 1000000000 = 1000 := by
  decide

/-- Claim C6 (amended): a money decoy formats as "$X.Y Trillion" exactly
when its value is STRICTLY greater than 1000 Billion and as "$X.Y Billion"
otherwise (a decoy of exactly 1000 Billion formats as Billion); for the
true value "$2.0 Trillion" and any physical `Math.random()` stream, every
returned option is a Trillion-formatted string, so no decoy such as
"$2000.0 Billion" can appear. -/
theorem c6_money_format_amended (rands : Nat → ℚ) (hr : ∀ n, 0 ≤ rands n) :
    (∀ valStr v, 1000 < v / 1000000000 →
      fakeStrOf valStr true v =
        "$" ++ toFixed1 (v / 1000000000 / 1000) ++ " Trillion") ∧
    (∀ valStr v, v / 1000000000 ≤ 1000 →
      fakeStrOf valStr true v =
        "$" ++ toFixed1 (v / 1000000000) ++ " Billion") ∧
    (∀ out, makeOptions "$2.0 Trillion" true rands = some out →
      ∀ s ∈ out, ∃ q : ℚ, s = "$" ++ toFixed1 q ++ " Trillion") := by
  refine ⟨fakeStrOf_money_trillion, fakeStrOf_money_billion, ?_⟩
  intro out hout s hs
  unfold makeOptions at hout
  split at hout
  · cases hout
  · split at hout
    · cases hout
    · rename_i v0 hpv
      split at hout
      · cases hout
      · rename_i hz
        have h2 : parseFloatQ (cleanNumStr "$2.0 Trillion") = some 2 := by
          decide
        rw [h2] at hpv
        have hv0 : v0 = 2 := (Option.some_injective _ hpv.symm)
        subst hv0
        have hinc : strIncludes "$2.0 Trillion" "Trillion" = true := by decide
        have hme : moneyExpand "$2.0 Trillion" true 2 = 2000000000000 := by
          simp only [moneyExpand, hinc, if_true]
          norm_num
        rw [hme] at hout
        have hsome := Option.some_injective _ hout
        rw [← hsome] at hs
        rcases makeOptionsGo_mem_src "$2.0 Trillion" true 2000000000000 rands
            100 0 ["$2.0 Trillion"] s hs with hmem | ⟨n, hn⟩
        · have hsv : s = "$2.0 Trillion" := List.mem_singleton.1 hmem
          refine ⟨2, ?_⟩
          rw [hsv]
          decide
        · refine ⟨2000000000000 * varyOf rands n / 1000000000 / 1000, ?_⟩
          rw [hn]
          apply fakeStrOf_money_trillion
          have harith : 2000000000000 * varyOf rands n / 1000000000 =
              1200 + 1600 * rands n := by
            unfold varyOf
            ring
          rw [harith]
          linarith [hr n]

/-- Witness for C6: the amended theorem applied just above the boundary, at
the boundary, and to the "$2.0 Trillion" option list. -/
theorem c6_money_format_witness :
    fakeStrOf "g" true 1100000000000 =
      "$" ++ toFixed1 ((1100000000000 : ℚ) / 1000000000 / 1000) ++ " Trillion" ∧
    fakeStrOf "g" true 1000000000000 =
      "$" ++ toFixed1 ((1000000000000 : ℚ) / 1000000000) ++ " Billion" ∧
    makeOptions "$2.0 Trillion" true c6wrands =
      some ["$2.0 Trillion", "$1.2 Trillion", "$1.6 Trillion", "$2.4 Trillion"] := by
  have h := c6_money_format_amended c6wrands
    (by intro n; unfold c6wrands; split_ifs <;> norm_num)
  exact ⟨h.1 "g" 1100000000000 (by norm_num),
         h.2.1 "g" 1000000000000 (by norm_num),
         by decide⟩

/-! ### Selection pool facts -/

/-- A tier filter only keeps pool members. -/
theorem tierCandidates_subset (data : List Country) (difficulty : String) :
    ∀ c ∈ tierCandidates data difficulty, c ∈ cityPool data := by
  intro c hc
  exact List.mem_of_mem_filter hc

/-- Members of a tier filter carry that effective difficulty. -/
theorem tierCandidates_diff (data : List Country) (difficulty : String) :
    ∀ c ∈ tierCandidates data difficulty, c.calculatedDifficulty = difficulty := by
  intro c hc
  simpa using List.of_mem_filter hc

/-- The fallback filter only keeps pool members. -/
theorem fallbackCandidates_subset (data : List Country) (difficulty : String) :
    ∀ c ∈ fallbackCandidates data difficulty, c ∈ cityPool data := by
  intro c hc
  unfold fallbackCandidates at hc
  split at hc <;> exact tierCandidates_subset _ _ _ hc

/-- The pre-fallback selection is contained in the fallback candidates. -/
theorem preSelection_subset_fallback (data : List Country) (difficulty : String)
    (used : List String) :
    ∀ c ∈ preSelection data difficulty used, c ∈ fallbackCandidates data difficulty := by
  intro c hc
  unfold preSelection at hc
  split at hc
  · exact List.mem_of_mem_filter hc
  · exact hc

/-- An empty pre-selection forces empty fallback candidates. -/
theorem preSelection_eq_nil (data : List Country) (difficulty : String)
    (used : List String) (h : preSelection data difficulty used = []) :
    fallbackCandidates data difficulty = [] := by
  unfold preSelection at h
  split at h
  · rename_i hpos
    rw [h] at hpos
    simp at hpos
  · exact h

/-- An empty city pool forces empty fallback candidates. -/
theorem fallback_of_cityPool_nil (data : List Country) (difficulty : String)
    (h : cityPool data = []) : fallbackCandidates data difficulty = [] := by
  unfold fallbackCandidates tierCandidates
  rw [h]
  simp

/-- The final pool is empty exactly when the whole city pool is. -/
theorem selectionPool_eq_nil_iff (data : List Country) (difficulty : String)
    (used : List String) :
    selectionPool data difficulty used = [] ↔ cityPool data = [] := by
  unfold selectionPool
  constructor
  · intro h
    split at h
    · exact h
    · rename_i hne
      exact absurd h hne
  · intro h
    have hf := fallback_of_cityPool_nil data difficulty h
    have hpre : preSelection data difficulty used = [] := by
      unfold preSelection availableCandidates
      rw [hf]
      simp
    rw [if_pos hpre]
    exact h

/-- The final pool only holds pool members. -/
theorem selectionPool_subset (data : List Country) (difficulty : String)
    (used : List String) :
    ∀ c ∈ selectionPool data difficulty used, c ∈ cityPool data := by
  intro c hc
  unfold selectionPool at hc
  split at hc
  · exact hc
  · exact fallbackCandidates_subset _ _ _
      (preSelection_subset_fallback _ _ _ _ hc)

/-- With a nonempty requested tier, the final pool stays inside it. -/
theorem selectionPool_tier (data : List Country) (difficulty : String)
    (used : List String) (ht : tierCandidates data difficulty ≠ []) :
    ∀ c ∈ selectionPool data difficulty used,
      c.calculatedDifficulty = difficulty := by
  intro c hc
  have hfb : fallbackCandidates data difficulty = tierCandidates data difficulty := by
    unfold fallbackCandidates
    rw [if_neg ht]
  unfold selectionPool at hc
  split at hc
  · rename_i hpre
    exact absurd (hfb ▸ preSelection_eq_nil data difficulty used hpre) ht
  · exact tierCandidates_diff data difficulty c
      (hfb ▸ preSelection_subset_fallback data difficulty used c hc)

/-- With an empty requested tier but nonempty medium tier, the final pool
stays inside the medium tier. -/
theorem selectionPool_medium (data : List Country) (difficulty : String)
    (used : List String) (ht : tierCandidates data difficulty = [])
    (hm : tierCandidates data "medium" ≠ []) :
    ∀ c ∈ selectionPool data difficulty used,
      c.calculatedDifficulty = "medium" := by
  intro c hc
  have hfb : fallbackCandidates data difficulty = tierCandidates data "medium" := by
    unfold fallbackCandidates
    rw [if_pos ht]
  unfold selectionPool at hc
  split at hc
  · rename_i hpre
    exact absurd (hfb ▸ preSelection_eq_nil data difficulty used hpre) hm
  · exact tierCandidates_diff data "medium" c
      (hfb ▸ preSelection_subset_fallback data difficulty used c hc)

/-- With both tiers empty the final pool is the entire unfiltered pool. -/
theorem selectionPool_full (data : List Country) (difficulty : String)
    (used : List String) (ht : tierCandidates data difficulty = [])
    (hm : tierCandidates data "medium" = []) :
    selectionPool data difficulty used = cityPool data := by
  have hf : fallbackCandidates data difficulty = [] := by
    unfold fallbackCandidates
    rw [if_pos ht]
    exact hm
  have hpre : preSelection data difficulty used = [] := by
    unfold preSelection availableCandidates
    rw [hf]
    simp
  unfold selectionPool
  rw [if_pos hpre]

/-- When the exclusion empties the pool it is ignored. -/
theorem preSelection_ignores_used (data : List Country) (difficulty : String)
    (used : List String)
    (havail : availableCandidates data difficulty used = []) :
    preSelection data difficulty used = fallbackCandidates data difficulty := by
  unfold preSelection
  rw [havail]
  simp

/-- The selector yields no candidate exactly on an empty city pool. -/
theorem selectCandidate_eq_none_iff (data : List Country) (difficulty : String)
    (used : List String) (pick : Nat) :
    selectCandidate data difficulty used pick = none ↔ cityPool data = [] := by
  unfold selectCandidate
  constructor
  · intro h
    by_contra hne
    have hp : selectionPool data difficulty used ≠ [] := fun hh =>
      hne ((selectionPool_eq_nil_iff data difficulty used).1 hh)
    have hlen : 0 < (selectionPool data difficulty used).length :=
      List.length_pos.2 hp
    rw [List.getElem?_eq_getElem (Nat.mod_lt _ hlen)] at h
    cases h
  · intro h
    rw [(selectionPool_eq_nil_iff data difficulty used).2 h]
    simp

/-- A selected candidate comes from the final pool. -/
theorem selectCandidate_mem (data : List Country) (difficulty : String)
    (used : List String) (pick : Nat) (c : Candidate)
    (h : selectCandidate data difficulty used pick = some c) :
    c ∈ selectionPool data difficulty used :=
  List.getElem?_mem h

/-! ### Claim C2 — fallback chain -/

/-- Claim C2 fails as stated: this dataset is nonempty (one country), yet
the selector returns absent, because the country has no cities. -/
theorem c2_nonempty_dataset_absent_counterexample :
    ([noCityLand] : List Country) ≠ [] ∧
    selectCandidate [noCityLand] "easy" [] 0 = none ∧
    generateLocalGameData [noCityLand] "easy" [] sampleRand = none := by
  refine ⟨by simp, by decide, by decide⟩

/-- Claim C2 (amended): the candidate-selection stage follows the exact
fallback chain — a candidate of the requested effective tier whenever that
tier is nonempty, a medium-tier candidate when the requested tier is empty
but medium is not, the entire unfiltered pool when both are empty, and
used-city exclusion ignored whenever it would empty the pool — and it
returns absent exactly when the dataset contains no (country, city) pair at
all (so repeated calls with a fully-used pool still return a candidate and
never error or hang in selection). -/
theorem c2_fallback_chain_amended (data : List Country) (difficulty : String)
    (used : List String) (pick : Nat) :
    (selectCandidate data difficulty used pick = none ↔ cityPool data = []) ∧
    (tierCandidates data difficulty = [] → tierCandidates data "medium" = [] →
      selectionPool data difficulty used = cityPool data) ∧
    (∀ c, selectCandidate data difficulty used pick = some c →
      c ∈ cityPool data ∧
      (tierCandidates data difficulty ≠ [] → c.calculatedDifficulty = difficulty) ∧
      (tierCandidates data difficulty = [] → tierCandidates data "medium" ≠ [] →
        c.calculatedDifficulty = "medium") ∧
      (availableCandidates data difficulty used = [] →
        fallbackCandidates data difficulty ≠ [] →
        c ∈ fallbackCandidates data difficulty)) := by
  refine ⟨selectCandidate_eq_none_iff data difficulty used pick,
    fun ht hm => selectionPool_full data difficulty used ht hm, ?_⟩
  intro c hc
  have hmem := selectCandidate_mem data difficulty used pick c hc
  refine ⟨selectionPool_subset data difficulty used c hmem,
    fun ht => selectionPool_tier data difficulty used ht c hmem,
    fun ht hm => selectionPool_medium data difficulty used ht hm c hmem,
    fun hav hfb => ?_⟩
  have hpre := preSelection_ignores_used data difficulty used hav
  have hprene : preSelection data difficulty used ≠ [] := by
    rw [hpre]
    exact hfb
  unfold selectionPool at hmem
  rw [if_neg hprene, hpre] at hmem
  exact hmem

/-- Witness for C2: with the whole easy tier already used, the amended
theorem still returns the (used) easy candidate — the exclusion is
ignored. -/
theorem c2_fallback_chain_witness :
    selectCandidate sampleData "easy" ["Varos:Varoston"] 0 = some varosCandidate ∧
    varosCandidate ∈ fallbackCandidates sampleData "easy" ∧
    varosCandidate.calculatedDifficulty = "easy" := by
  have hsel : selectCandidate sampleData "easy" ["Varos:Varoston"] 0 =
      some varosCandidate := by
    decide
  have h := (c2_fallback_chain_amended sampleData "easy" ["Varos:Varoston"] 0).2.2
    varosCandidate hsel
  exact ⟨hsel,
    h.2.2.2 (by decide) (by decide),
    h.2.1 (by decide)⟩

/-! ### Flag loop facts -/

/-- A substring surrounded by arbitrary context is found by `containsSub`. -/
theorem containsSub_middle (pat : List Char) :
    ∀ pre suf, containsSub pat (pre ++ pat ++ suf) = true := by
  intro pre
  induction pre with
  | nil =>
    intro suf
    cases pat with
    | nil =>
      cases suf <;> simp [containsSub]
    | cons c cs =>
      simp only [List.nil_append, List.cons_append, containsSub,
        Bool.or_eq_true]
      left
      rw [List.isPrefixOf_iff_prefix]
      exact ⟨suf, by simp⟩
  | cons a pre ih =>
    intro suf
    simp only [List.cons_append, containsSub, Bool.or_eq_true]
    right
    exact ih suf

/-- Every country code occurs inside its own flag url. -/
theorem strIncludes_flagUrl_self (c : String) :
    strIncludes (flagUrl c) c = true := by
  unfold strIncludes flagUrl
  rw [String.data_append, String.data_append]
  exact containsSub_middle c.data _ _

/-- The flag loop preserves: at most 4 options, the correct-marked entries
untouched, and pairwise-distinct codes. -/
theorem flagLoop_invariant (data : List Country) (correct : Country) :
    ∀ picks acc, acc.length ≤ 4 →
      (flagLoop data correct picks acc).length ≤ 4 ∧
      (flagLoop data correct picks acc).filter (fun f => f.is_correct) =
        acc.filter (fun f => f.is_correct) ∧
      ((acc.map fun f => f.code).Nodup →
        ((flagLoop data correct picks acc).map fun f => f.code).Nodup) := by
  intro picks
  induction picks with
  | nil =>
    intro acc hlen
    exact ⟨hlen, rfl, fun h => h⟩
  | cons p ps ih =>
    intro acc hlen
    rw [flagLoop]
    split
    · exact ⟨hlen, rfl, fun h => h⟩
    · rename_i hnotfull
      split
      · exact ⟨hlen, rfl, fun h => h⟩
      · rename_i r hr
        split
        · rename_i hcond
          have hlen' : (acc ++ [(⟨r.code, false⟩ : FlagOpt)]).length ≤ 4 := by
            simp only [List.length_append, List.length_singleton]
            omega
          refine ⟨(ih _ hlen').1, ?_, ?_⟩
          · rw [(ih _ hlen').2.1]
            simp [List.filter_append]
          · intro hnd
            apply (ih _ hlen').2.2
            rw [List.map_append]
            simp only [List.map_cons, List.map_nil]
            rw [List.nodup_append]
            refine ⟨hnd, List.nodup_singleton _, ?_⟩
            intro x hx hx1
            have hxr : x = r.code := by simpa using hx1
            subst hxr
            rcases List.mem_map.1 hx with ⟨f, hf, hfc⟩
            have hany : acc.any (fun f => strIncludes (flagUrl f.code) r.code) = true := by
              rw [List.any_eq_true]
              exact ⟨f, hf, by rw [hfc]; exact strIncludes_flagUrl_self r.code⟩
            exact hcond.2 hany
        · exact ih _ hlen

/-- The built flag options: at most 4, exactly one correct entry (the
target's), distinct codes. -/
theorem buildFlagOptions_invariant (data : List Country) (correct : Country)
    (picks : List Nat) :
    (buildFlagOptions data correct picks).length ≤ 4 ∧
    (buildFlagOptions data correct picks).filter (fun f => f.is_correct) =
      [⟨correct.code, true⟩] ∧
    ((buildFlagOptions data correct picks).map fun f => f.code).Nodup := by
  unfold buildFlagOptions
  have h := flagLoop_invariant data correct picks [⟨correct.code, true⟩] (by simp)
  exact ⟨h.1, by rw [h.2.1]; rfl, h.2.2 (by simp)⟩

/-! ### Claim C5 — flag option invariants -/

/-- Claim C5: every Round the generator returns carries exactly 4 flag
options, exactly one of them marked correct (the target country's code),
and all four codes pairwise distinct. -/
theorem c5_flag_invariants (data : List Country) (difficulty : String)
    (used : List String) (rng : Rand) (hfair : FairRand rng) (r : Round)
    (used' : List String)
    (h : generateLocalGameData data difficulty used rng = some (r, used')) :
    r.flag_options.length = 4 ∧
    (r.flag_options.filter fun f => f.is_correct).length = 1 ∧
    (r.flag_options.map fun f => f.code).Nodup := by
  unfold generateLocalGameData at h
  split at h
  · cases h
  · split at h
    · cases h
    · rename_i result hsel
      dsimp only at h
      split at h
      · cases h
      · rename_i hge
        have hpair := Option.some_injective _ h
        rw [Prod.mk.injEq] at hpair
        obtain ⟨hr, _⟩ := hpair
        subst hr
        simp only
        have hinv := buildFlagOptions_invariant data result.countryRef rng.flagPicks
        have hperm := hfair.2 (buildFlagOptions data result.countryRef rng.flagPicks)
        refine ⟨?_, ?_, ?_⟩
        · rw [hperm.length_eq]
          omega
        · rw [(hperm.filter (fun f => f.is_correct)).length_eq, hinv.2.1]
          rfl
        · exact (hperm.map (fun f => f.code)).nodup_iff.2 hinv.2.2

/-- Witness for C5: the invariants extracted from the concrete sample
round. -/
theorem c5_flag_invariants_witness :
    sampleRound.flag_options.length = 4 ∧
    (sampleRound.flag_options.filter fun f => f.is_correct).length = 1 ∧
    (sampleRound.flag_options.map fun f => f.code).Nodup :=
  c5_flag_invariants sampleData "easy" [] sampleRand
    ⟨fun l => List.Perm.refl l, fun l => List.Perm.refl l⟩
    sampleRound sampleUsed (by decide)

/-! ### Claim C1 — the spec's end-to-end example -/

/-- Claim C1's scenario hits a code bug: on the one-country dataset the
flag-decoy loop can never add a second country code, so it never reaches 4
options — the source's `while` loop (script.js:423) spins forever and
`selectRound` never returns, even though the selection stage has already
picked Varoston. -/
theorem c1_single_country_round_never_completes (rng : Rand) :
    selectCandidate [varos] "easy" [] rng.pick = some varosCandidate ∧
    buildFlagOptions [varos] varos rng.flagPicks = [⟨"va", true⟩] ∧
    generateLocalGameData [varos] "easy" [] rng = none := by
  have hpool : selectionPool [varos] "easy" [] = [varosCandidate] := by decide
  have hsel : selectCandidate [varos] "easy" [] rng.pick = some varosCandidate := by
    unfold selectCandidate
    rw [hpool]
    simp [Nat.mod_one]
  have hflag : ∀ picks acc, flagLoop [varos] varos picks acc = acc := by
    intro picks
    induction picks with
    | nil =>
      intro acc
      rfl
    | cons p ps ih =>
      intro acc
      rw [flagLoop]
      split
      · rfl
      · have hget : ([varos] : List Country)[p % ([varos] : List Country).length]? =
            some varos := by
          simp [Nat.mod_one]
        simp only [hget]
        rw [if_neg (by simp)]
        exact ih acc
  have hbuild : buildFlagOptions [varos] varos rng.flagPicks = [⟨"va", true⟩] := by
    unfold buildFlagOptions
    rw [hflag]
    rfl
  refine ⟨hsel, hbuild, ?_⟩
  unfold generateLocalGameData
  rw [if_neg (by simp)]
  simp only [hsel]
  have hbuild' : buildFlagOptions [varos] varosCandidate.countryRef rng.flagPicks =
      [⟨"va", true⟩] := hbuild
  rw [hbuild']
  simp

/-! ### Claim C10 — aggregated city populations -/

/-- The "Unknown" sentinel is rejected by the distractor generator. -/
theorem makeOptions_unknown (isMoney : Bool) (rands : Nat → ℚ) :
    makeOptions "Unknown" isMoney rands = none := rfl

/-- Claim C10: the aggregation script stamps every city record with the
population sentinel "Unknown"; hence every Round selected from an
aggregated dataset has an empty city stats-quiz map, and entering
STATS_CITY immediately auto-advances to HISTORICAL_FACT with no user
interaction. -/
theorem c10_city_stats_always_unknown (statsData : List StatEntry)
    (countries : List RawCountry) (difficulty : String) (used : List String)
    (rng : Rand) :
    (∀ country ∈ aggregate statsData countries, ∀ city ∈ country.cities,
      city.pop = "Unknown") ∧
    (∀ r used', generateLocalGameData (aggregate statsData countries)
        difficulty used rng = some (r, used') →
      r.city.stats_quiz = [] ∧ statsCityEntry r = "HISTORICAL_FACT") := by
  have hpop : ∀ country ∈ aggregate statsData countries,
      ∀ city ∈ country.cities, city.pop = "Unknown" := by
    intro country hc city hcity
    unfold aggregate at hc
    have hmem := List.mem_of_mem_filter hc
    rcases List.mem_map.1 hmem with ⟨raw, _, hb⟩
    subst hb
    have hcities : (buildCountry statsData raw).cities = buildCities raw := rfl
    rw [hcities] at hcity
    unfold buildCities at hcity
    rcases List.mem_flatMap.1 hcity with ⟨st, _, hcity2⟩
    rcases List.mem_map.1 hcity2 with ⟨rawCity, _, hb2⟩
    rw [← hb2]
  refine ⟨hpop, ?_⟩
  intro r used' h
  unfold generateLocalGameData at h
  split at h
  · cases h
  · split at h
    · cases h
    · rename_i result hsel
      dsimp only at h
      split at h
      · cases h
      · have hpair := Option.some_injective _ h
        rw [Prod.mk.injEq] at hpair
        obtain ⟨hr, _⟩ := hpair
        subst hr
        have hcpop : result.city.pop = "Unknown" := by
          have hmem := selectCandidate_mem _ _ _ _ _ hsel
          have hpool := selectionPool_subset _ _ _ _ hmem
          unfold cityPool at hpool
          rcases List.mem_flatMap.1 hpool with ⟨country, hcountry, hpool2⟩
          rcases List.mem_map.1 hpool2 with ⟨city, hcity, hb⟩
          have hrc : result.city = city := by rw [← hb]
          rw [hrc]
          exact hpop country hcountry city hcity
        simp only [hcpop, makeOptions_unknown]
        exact ⟨trivial, rfl⟩

/-- Witness for C10: the claim theorem applied to the concrete aggregated
dataset and its generated round. -/
theorem c10_city_stats_witness :
    aggRound.city.stats_quiz = [] ∧ statsCityEntry aggRound = "HISTORICAL_FACT" :=
  (c10_city_stats_always_unknown rawStats rawSample "easy" [] sampleRand).2
    aggRound aggUsed (by decide)

end GeoDaily
